import Mathlib

/-!
# Prometheus publisher for AWS SDK (v2) request metrics

A shallow embedding of `v2/v2.go` (package `publisher`).

* Go's `int`, `int64` and `time.Duration` are mathematical integers (`Int`);
  the 64-bit range is stated as `isInt64` where a result depends on it.
* The process-wide metric instruments of package `common` are a registry
  state: the ordered record of every update call made on them.  A counter's
  value is the number of `Inc` calls made under a label set.
* A `float64` that holds a converted integer is represented by the integer it
  denotes; `float64` is the conversion (round to nearest, ties to even).
* A Go panic is the result `none`.  The only panic modelled is the one of
  metric registration; `With` on an instrument is taken to succeed, its label
  names being fixed by package `common`.
-/

namespace publisher

/-! ## Data model -/

/-- One nanosecond, the unit of `time.Duration`. -/
def Nanosecond : Int := 1

/-- One millisecond as a `time.Duration`. -/
def Millisecond : Int := 1000000 * Nanosecond

/-- Range of a Go `int64` (and of `int` on 64-bit targets). -/
def isInt64 (n : Int) : Prop := -(2 ^ 63 : Int) ≤ n ∧ n < (2 ^ 63 : Int)

instance (n : Int) : Decidable (isInt64 n) := by
  unfold isInt64
  infer_instance

/-- Method `Duration.Milliseconds`: `int64(d) / 1e6`, Go integer division
(truncation toward zero). -/
def Milliseconds (d : Int) : Int := Int.tdiv d 1000000

/-- Number of low-order bits that do not fit a 53-bit significand: the least
`e` with `a / 2 ^ e < 2 ^ 53` (the first argument bounds the search). -/
def dropBits : Nat → Nat → Nat
  | 0, _ => 0
  | fuel + 1, a => if a < 2 ^ 53 then 0 else dropBits fuel (a / 2) + 1

/-- Go conversion `float64(n)` of an integer: the nearest IEEE-754 binary64
value (53-bit significand, ties to even), given as the integer it denotes. -/
def float64 (n : Int) : Int :=
  let a := n.natAbs
  let e := dropBits a a
  let q := a / 2 ^ e
  let r := a % 2 ^ e
  let half := 2 ^ e / 2
  let q1 := if half < r ∨ (r = half ∧ e ≠ 0 ∧ q % 2 = 1) then q + 1 else q
  n.sign * ((q1 * 2 ^ e : Nat) : Int)

/-- The fields of `metrics.AttemptMetrics` read by the publisher. -/
structure AttemptMetrics where
  StatusCode : Int
  ServiceCallDuration : Int
  deriving DecidableEq, Repr

/-- The fields of `metrics.MetricData` read by the publisher. -/
structure MetricData where
  ServiceID : String
  OperationName : String
  StatusCode : Int
  APICallDuration : Int
  RetryCount : Int
  Attempts : List AttemptMetrics
  deriving DecidableEq, Repr

/-- Modelled from the spec: the label set built by `common.RequestLabels`
(package `common` is not part of the sources at hand), the tuple
(service identifier, operation name, status code). -/
structure Labels where
  service : String
  operation : String
  statusCode : Int
  deriving DecidableEq, Repr

/-- Modelled from the spec: `common.RequestLabels(service, operation, statusCode)`
builds the label set (service, operation, status code). -/
def RequestLabels (service operation : String) (statusCode : Int) : Labels :=
  ⟨service, operation, statusCode⟩

/-- The five metric instruments of package `common` used by the publisher. -/
inductive Instrument where
  | TotalRequests
  | RequestLatency
  | RetryCount
  | TotalRequestAttempts
  | RequestAttemptLatency
  deriving DecidableEq, Repr

/-- The update performed on an instrument child: a counter `Inc()` or a
histogram `Observe(v)`. -/
inductive Op where
  | Inc
  | Observe (v : Int)
  deriving DecidableEq, Repr

/-- One update call `instrument.With(labels).op`. -/
structure Update where
  instrument : Instrument
  labels : Labels
  op : Op
  deriving DecidableEq, Repr

/-- Registry state: all update calls made so far, oldest first. -/
abbrev Registry := List Update

/-- Call `c.With(l).Inc()` on a counter vector. -/
def Inc (c : Instrument) (l : Labels) (reg : Registry) : Registry :=
  reg ++ [⟨c, l, Op.Inc⟩]

/-- Call `h.With(l).Observe(v)` on a histogram vector. -/
def Observe (h : Instrument) (l : Labels) (v : Int) (reg : Registry) : Registry :=
  reg ++ [⟨h, l, Op.Observe v⟩]

/-- A Go `error` value; `none` is `nil`. -/
abbrev Error := Option String

/-- Method `PostRequestMetrics` publishes request metrics to the prometheus registry. -/
def PostRequestMetrics (data : MetricData) (reg : Registry) : Error × Registry :=
  let reg := Inc Instrument.TotalRequests
    (RequestLabels data.ServiceID data.OperationName data.StatusCode) reg
  let reg := Observe Instrument.RequestLatency
    (RequestLabels data.ServiceID data.OperationName data.StatusCode)
    (float64 (Milliseconds data.APICallDuration)) reg
  let reg := Observe Instrument.RetryCount
    (RequestLabels data.ServiceID data.OperationName data.StatusCode)
    (float64 data.RetryCount) reg
  let reg := data.Attempts.foldl (fun reg attempt =>
    let reg := Inc Instrument.TotalRequestAttempts
      (RequestLabels data.ServiceID data.OperationName attempt.StatusCode) reg
    Observe Instrument.RequestAttemptLatency
      (RequestLabels data.ServiceID data.OperationName data.StatusCode)
      (float64 attempt.ServiceCallDuration) reg) reg
  (none, reg)

/-- Method `PostStreamMetrics` publishes the stream metrics to the prometheus registry. -/
def PostStreamMetrics (data : MetricData) (reg : Registry) : Error × Registry :=
  let reg := Inc Instrument.TotalRequests
    (RequestLabels data.ServiceID data.OperationName data.StatusCode) reg
  (none, reg)

/-! ## Configuration injector -/

/-- Type `PrometheusPublisher` is the publisher bound to a registry. -/
structure PrometheusPublisher (Registerer : Type) where
  registry : Registerer

/-- The part of `aws.Config` touched by the injector: the `APIOptions` slice,
and all remaining fields as one value. -/
structure Config (Step Rest : Type) where
  APIOptions : List Step
  rest : Rest

section Injector

variable {Registerer Stack HTTPClient Rest : Type}

/-- Function `NewPrometheusPublisher` registers the metrics on `r` and returns a
publisher bound to that registry.  `MustRegisterMetrics` stands for
`common.MustRegisterMetrics`: it gives the registry with the instruments
registered, or `none` when registration panics. -/
def NewPrometheusPublisher (MustRegisterMetrics : Registerer → Option Registerer)
    (r : Registerer) : Option (PrometheusPublisher Registerer) :=
  match MustRegisterMetrics r with
  | none => none
  | some r1 => some { registry := r1 }

/-- Function `WithPrometheusMetrics` wraps a configuration, appending to `APIOptions`
the function that attaches the metric middlewares to a stack.
`WithMetricMiddlewares` and `DefaultClient` stand for the SDK's
`middleware.WithMetricMiddlewares` and `http.DefaultClient`. -/
def WithPrometheusMetrics (MustRegisterMetrics : Registerer → Option Registerer)
    (WithMetricMiddlewares :
      PrometheusPublisher Registerer → HTTPClient → Stack → Error × Stack)
    (DefaultClient : HTTPClient)
    (cfg : Config (Stack → Error × Stack) Rest) (r : Registerer) :
    Option (Config (Stack → Error × Stack) Rest) :=
  match NewPrometheusPublisher MustRegisterMetrics r with
  | none => none
  | some p =>
    let cfg := { cfg with
      APIOptions := cfg.APIOptions ++ [fun s => WithMetricMiddlewares p DefaultClient s] }
    some cfg

end Injector

/-! ## Observations on the registry state -/

/-- The updates a call added, given the registry before and after it. -/
def newUpdates (before after : Registry) : List Update :=
  after.drop before.length

/-- Label sets of the `Inc` calls made on counter `c`, in call order. -/
def incsOn (c : Instrument) (us : List Update) : List Labels :=
  us.filterMap fun u =>
    if u.instrument = c ∧ u.op = Op.Inc then some u.labels else none

/-- Label sets and values of the `Observe` calls made on histogram `h`, in
call order. -/
def observationsOn (h : Instrument) (us : List Update) : List (Labels × Int) :=
  us.filterMap fun u =>
    match u.op with
    | Op.Observe v => if u.instrument = h then some (u.labels, v) else none
    | Op.Inc => none

/-- Value of counter `c` under label set `l`: the number of `Inc` calls made
on it. -/
def counterValue (c : Instrument) (reg : Registry) (l : Labels) : Nat :=
  (incsOn c reg).count l

/-- The updates made by one call of `PostRequestMetrics`. -/
def postRequestUpdates (data : MetricData) (reg : Registry) : List Update :=
  newUpdates reg (PostRequestMetrics data reg).2

/-- The updates made by one call of `PostStreamMetrics`. -/
def postStreamUpdates (data : MetricData) (reg : Registry) : List Update :=
  newUpdates reg (PostStreamMetrics data reg).2

/-- The three request-level updates of `PostRequestMetrics`, in call order. -/
def requestUpdates (data : MetricData) : List Update :=
  [⟨Instrument.TotalRequests,
      RequestLabels data.ServiceID data.OperationName data.StatusCode, Op.Inc⟩,
   ⟨Instrument.RequestLatency,
      RequestLabels data.ServiceID data.OperationName data.StatusCode,
      Op.Observe (float64 (Milliseconds data.APICallDuration))⟩,
   ⟨Instrument.RetryCount,
      RequestLabels data.ServiceID data.OperationName data.StatusCode,
      Op.Observe (float64 data.RetryCount)⟩]

/-- The two updates of one iteration of the attempt loop, in call order. -/
def attemptUpdates (data : MetricData) (attempt : AttemptMetrics) : List Update :=
  [⟨Instrument.TotalRequestAttempts,
      RequestLabels data.ServiceID data.OperationName attempt.StatusCode, Op.Inc⟩,
   ⟨Instrument.RequestAttemptLatency,
      RequestLabels data.ServiceID data.OperationName data.StatusCode,
      Op.Observe (float64 attempt.ServiceCallDuration)⟩]

/-! ## Auxiliary lemmas -/

theorem dropBits_of_lt (fuel a : Nat) (h : a < 2 ^ 53) : dropBits fuel a = 0 := by
  cases fuel with
  | zero => rfl
  | succ f => simp only [dropBits, if_pos h]

/-- Integers of magnitude below `2 ^ 53` convert to `float64` exactly. -/
theorem float64_exact (n : Int) (h : n.natAbs < 2 ^ 53) : float64 n = n := by
  unfold float64
  simp only [dropBits_of_lt _ _ h]
  simp [Nat.mod_one, Int.sign_mul_abs]

theorem attempt_loop (data : MetricData) (as : List AttemptMetrics) (reg : Registry) :
    as.foldl (fun reg attempt =>
      let reg := Inc Instrument.TotalRequestAttempts
        (RequestLabels data.ServiceID data.OperationName attempt.StatusCode) reg
      Observe Instrument.RequestAttemptLatency
        (RequestLabels data.ServiceID data.OperationName data.StatusCode)
        (float64 attempt.ServiceCallDuration) reg) reg
      = reg ++ as.flatMap (attemptUpdates data) := by
  induction as generalizing reg with
  | nil => simp
  | cons a as ih =>
    simp only [List.foldl_cons, List.flatMap_cons]
    rw [ih]
    simp [Inc, Observe, attemptUpdates]

/-- The registry after `PostRequestMetrics`: the old updates, the three
request-level updates, then two updates per attempt in attempt order. -/
theorem PostRequestMetrics_registry (data : MetricData) (reg : Registry) :
    (PostRequestMetrics data reg).2
      = reg ++ (requestUpdates data ++ data.Attempts.flatMap (attemptUpdates data)) := by
  unfold PostRequestMetrics
  simp only [attempt_loop]
  simp [Inc, Observe, requestUpdates]

theorem newUpdates_PostRequestMetrics (data : MetricData) (reg : Registry) :
    newUpdates reg (PostRequestMetrics data reg).2
      = requestUpdates data ++ data.Attempts.flatMap (attemptUpdates data) := by
  rw [PostRequestMetrics_registry, newUpdates, List.drop_left]

theorem incsOn_append (c : Instrument) (us vs : List Update) :
    incsOn c (us ++ vs) = incsOn c us ++ incsOn c vs := by
  simp [incsOn]

theorem observationsOn_append (h : Instrument) (us vs : List Update) :
    observationsOn h (us ++ vs) = observationsOn h us ++ observationsOn h vs := by
  simp [observationsOn]

theorem incsOn_attempts (data : MetricData) (as : List AttemptMetrics) :
    incsOn Instrument.TotalRequestAttempts (as.flatMap (attemptUpdates data))
      = as.map fun a => RequestLabels data.ServiceID data.OperationName a.StatusCode := by
  induction as with
  | nil => rfl
  | cons a as ih =>
    rw [List.flatMap_cons, incsOn_append, ih]
    simp [incsOn, attemptUpdates]

theorem observationsOn_attempts (data : MetricData) (as : List AttemptMetrics) :
    observationsOn Instrument.RequestAttemptLatency (as.flatMap (attemptUpdates data))
      = as.map fun a =>
          (RequestLabels data.ServiceID data.OperationName data.StatusCode,
            float64 a.ServiceCallDuration) := by
  induction as with
  | nil => rfl
  | cons a as ih =>
    rw [List.flatMap_cons, observationsOn_append, ih]
    simp [observationsOn, attemptUpdates]

theorem incsOn_attempts_other (data : MetricData) (as : List AttemptMetrics)
    (c : Instrument) (hc : c ≠ Instrument.TotalRequestAttempts) :
    incsOn c (as.flatMap (attemptUpdates data)) = [] := by
  induction as with
  | nil => rfl
  | cons a as ih =>
    rw [List.flatMap_cons, incsOn_append, ih]
    simp [incsOn, attemptUpdates, Ne.symm hc]

theorem observationsOn_attempts_other (data : MetricData) (as : List AttemptMetrics)
    (h : Instrument) (hh : h ≠ Instrument.RequestAttemptLatency) :
    observationsOn h (as.flatMap (attemptUpdates data)) = [] := by
  induction as with
  | nil => rfl
  | cons a as ih =>
    rw [List.flatMap_cons, observationsOn_append, ih]
    simp [observationsOn, attemptUpdates, Ne.symm hh]

theorem length_attempts (data : MetricData) (as : List AttemptMetrics) :
    (as.flatMap (attemptUpdates data)).length = 2 * as.length := by
  induction as with
  | nil => rfl
  | cons a as ih =>
    rw [List.flatMap_cons, List.length_append, ih]
    simp [attemptUpdates]
    omega

/-! ## Request and stream completion -/

/-- C1: for a record with K attempts, `PostRequestMetrics` keeps the earlier
updates and adds exactly one increment of the request-total counter, one
observation of the request latency, one observation of the retry count, K
increments of the attempt-total counter and K observations of the attempt
latency; these 3 + 2K updates are all the updates it makes. -/
theorem PostRequestMetrics_update_counts (data : MetricData) (reg : Registry) :
    (PostRequestMetrics data reg).2 = reg ++ postRequestUpdates data reg ∧
    (incsOn Instrument.TotalRequests (postRequestUpdates data reg)).length = 1 ∧
    (observationsOn Instrument.RequestLatency (postRequestUpdates data reg)).length = 1 ∧
    (observationsOn Instrument.RetryCount (postRequestUpdates data reg)).length = 1 ∧
    (incsOn Instrument.TotalRequestAttempts (postRequestUpdates data reg)).length
      = data.Attempts.length ∧
    (observationsOn Instrument.RequestAttemptLatency (postRequestUpdates data reg)).length
      = data.Attempts.length ∧
    (postRequestUpdates data reg).length = 3 + 2 * data.Attempts.length := by
  have hnew := newUpdates_PostRequestMetrics data reg
  unfold postRequestUpdates
  rw [hnew]
  refine ⟨PostRequestMetrics_registry data reg, ?_, ?_, ?_, ?_, ?_, ?_⟩
  · rw [incsOn_append, incsOn_attempts_other _ _ _ (by decide)]
    simp [incsOn, requestUpdates]
  · rw [observationsOn_append, observationsOn_attempts_other _ _ _ (by decide)]
    simp [observationsOn, requestUpdates]
  · rw [observationsOn_append, observationsOn_attempts_other _ _ _ (by decide)]
    simp [observationsOn, requestUpdates]
  · rw [incsOn_append, incsOn_attempts]
    simp [incsOn, requestUpdates]
  · rw [observationsOn_append, observationsOn_attempts]
    simp [observationsOn, requestUpdates]
  · rw [List.length_append, length_attempts]
    simp [requestUpdates]

/-- C3: whatever the attempts of the record, `PostStreamMetrics` adds exactly
one update, an increment of the request-total counter under the labels
(service ID, operation name, final status code), and no update on the
request-latency, retry-count, attempt-total or attempt-latency instruments. -/
theorem PostStreamMetrics_single_update (data : MetricData) (reg : Registry) :
    (PostStreamMetrics data reg).2 = reg ++ postStreamUpdates data reg ∧
    postStreamUpdates data reg
      = [⟨Instrument.TotalRequests,
          RequestLabels data.ServiceID data.OperationName data.StatusCode, Op.Inc⟩] ∧
    (postStreamUpdates data reg).length = 1 ∧
    (postStreamUpdates data reg).filter
      (fun u => u.instrument = Instrument.RequestLatency) = [] ∧
    (postStreamUpdates data reg).filter
      (fun u => u.instrument = Instrument.RetryCount) = [] ∧
    (postStreamUpdates data reg).filter
      (fun u => u.instrument = Instrument.TotalRequestAttempts) = [] ∧
    (postStreamUpdates data reg).filter
      (fun u => u.instrument = Instrument.RequestAttemptLatency) = [] := by
  have hnew : postStreamUpdates data reg
      = [⟨Instrument.TotalRequests,
          RequestLabels data.ServiceID data.OperationName data.StatusCode, Op.Inc⟩] := by
    simp [postStreamUpdates, newUpdates, PostStreamMetrics, Inc]
  rw [hnew]
  exact ⟨by simp [PostStreamMetrics, Inc], rfl, rfl, by simp, by simp, by simp, by simp⟩

/-- C9: `PostRequestMetrics` and `PostStreamMetrics` return a nil error for
every record and every registry state. -/
theorem publisher_returns_nil (data : MetricData) (reg : Registry) :
    (PostRequestMetrics data reg).1 = none ∧ (PostStreamMetrics data reg).1 = none :=
  ⟨rfl, rfl⟩

/-- C2: for the i-th attempt of a record, the i-th attempt-total increment is
labelled (service ID, operation name, that attempt's status code), the i-th
attempt-latency observation is labelled (service ID, operation name, final
status code of the record), and the two label sets differ exactly when the
attempt's status code differs from the final status code. -/
theorem PostRequestMetrics_attempt_labels (data : MetricData) (reg : Registry)
    (i : Nat) (hi : i < data.Attempts.length) :
    (incsOn Instrument.TotalRequestAttempts (postRequestUpdates data reg))[i]?
      = some (RequestLabels data.ServiceID data.OperationName data.Attempts[i].StatusCode) ∧
    ((observationsOn Instrument.RequestAttemptLatency
        (postRequestUpdates data reg)).map Prod.fst)[i]?
      = some (RequestLabels data.ServiceID data.OperationName data.StatusCode) ∧
    (RequestLabels data.ServiceID data.OperationName data.Attempts[i].StatusCode
        ≠ RequestLabels data.ServiceID data.OperationName data.StatusCode
      ↔ data.Attempts[i].StatusCode ≠ data.StatusCode) := by
  unfold postRequestUpdates
  rw [newUpdates_PostRequestMetrics]
  refine ⟨?_, ?_, ?_⟩
  · rw [incsOn_append, incsOn_attempts]
    simp [incsOn, requestUpdates, hi]
  · rw [observationsOn_append, observationsOn_attempts]
    simp [observationsOn, requestUpdates, hi]
  · simp [RequestLabels]

/-- Witness for C2: a record whose first attempt failed with 500 before the
request ended with 200. -/
theorem PostRequestMetrics_attempt_labels_witness :
    (0 < (MetricData.mk "s3" "GetObject" 200 7000000 1
        [⟨500, 3000000⟩, ⟨200, 4000000⟩]).Attempts.length) ∧
    (incsOn Instrument.TotalRequestAttempts
        (postRequestUpdates (MetricData.mk "s3" "GetObject" 200 7000000 1
          [⟨500, 3000000⟩, ⟨200, 4000000⟩]) []))[0]?
      = some (RequestLabels "s3" "GetObject" 500) ∧
    ((observationsOn Instrument.RequestAttemptLatency
        (postRequestUpdates (MetricData.mk "s3" "GetObject" 200 7000000 1
          [⟨500, 3000000⟩, ⟨200, 4000000⟩]) [])).map Prod.fst)[0]?
      = some (RequestLabels "s3" "GetObject" 200) :=
  ⟨by decide,
   (PostRequestMetrics_attempt_labels (MetricData.mk "s3" "GetObject" 200 7000000 1
      [⟨500, 3000000⟩, ⟨200, 4000000⟩]) [] 0 (by decide)).1,
   (PostRequestMetrics_attempt_labels (MetricData.mk "s3" "GetObject" 200 7000000 1
      [⟨500, 3000000⟩, ⟨200, 4000000⟩]) [] 0 (by decide)).2.1⟩

/-- C8: the first three updates of `PostRequestMetrics` are the request-level
ones; the attempt-level updates follow them, one increment and one observation
per attempt in attempt order, so the status-code labels of the attempt-total
increments are the attempts' status codes (same order, duplicates kept) and
the attempt-latency observations are those of the attempts in order. -/
theorem PostRequestMetrics_attempt_order (data : MetricData) (reg : Registry) :
    ((postRequestUpdates data reg).take 3).map (fun u => u.instrument)
      = [Instrument.TotalRequests, Instrument.RequestLatency, Instrument.RetryCount] ∧
    (postRequestUpdates data reg).drop 3
      = data.Attempts.flatMap (fun a =>
          [⟨Instrument.TotalRequestAttempts,
              RequestLabels data.ServiceID data.OperationName a.StatusCode, Op.Inc⟩,
           ⟨Instrument.RequestAttemptLatency,
              RequestLabels data.ServiceID data.OperationName data.StatusCode,
              Op.Observe (float64 a.ServiceCallDuration)⟩]) ∧
    (incsOn Instrument.TotalRequestAttempts (postRequestUpdates data reg)).map
        (fun l => l.statusCode)
      = data.Attempts.map (fun a => a.StatusCode) ∧
    (observationsOn Instrument.RequestAttemptLatency (postRequestUpdates data reg)).map
        Prod.snd
      = data.Attempts.map (fun a => float64 a.ServiceCallDuration) := by
  unfold postRequestUpdates
  rw [newUpdates_PostRequestMetrics]
  refine ⟨by simp [requestUpdates], ?_, ?_, ?_⟩
  · have h3 : (requestUpdates data).length = 3 := rfl
    rw [List.drop_left' h3]
    rfl
  · rw [incsOn_append, incsOn_attempts]
    simp [incsOn, requestUpdates, RequestLabels]
  · rw [observationsOn_append, observationsOn_attempts]
    simp [observationsOn, requestUpdates]

theorem Milliseconds_nonneg (d : Int) (h0 : 0 ≤ d) : Milliseconds d = d / 1000000 := by
  unfold Milliseconds
  exact Int.tdiv_eq_ediv h0 (by decide)

theorem float64_Milliseconds (d : Int) (h0 : 0 ≤ d) (h64 : d < 2 ^ 63) :
    float64 (Milliseconds d) = Milliseconds d := by
  apply float64_exact
  rw [Milliseconds_nonneg d h0]
  omega

/-- C4: for a record whose total call duration is d nanoseconds, 0 ≤ d (and d
in the range of `time.Duration`), the single value observed on the
request-latency histogram is d divided by 1,000,000 truncated to an integer,
the whole number of milliseconds in d; a duration of 250ms is observed as 250. -/
theorem PostRequestMetrics_request_latency_ms (data : MetricData) (reg : Registry)
    (h0 : 0 ≤ data.APICallDuration) (h64 : data.APICallDuration < 2 ^ 63) :
    observationsOn Instrument.RequestLatency (postRequestUpdates data reg)
      = [(RequestLabels data.ServiceID data.OperationName data.StatusCode,
          Int.tdiv data.APICallDuration 1000000)] ∧
    Int.tdiv data.APICallDuration 1000000 * 1000000 ≤ data.APICallDuration ∧
    data.APICallDuration < (Int.tdiv data.APICallDuration 1000000 + 1) * 1000000 ∧
    (data.APICallDuration = 250 * Millisecond →
      observationsOn Instrument.RequestLatency (postRequestUpdates data reg)
        = [(RequestLabels data.ServiceID data.OperationName data.StatusCode, 250)]) := by
  have hobs : observationsOn Instrument.RequestLatency (postRequestUpdates data reg)
      = [(RequestLabels data.ServiceID data.OperationName data.StatusCode,
          Int.tdiv data.APICallDuration 1000000)] := by
    unfold postRequestUpdates
    rw [newUpdates_PostRequestMetrics, observationsOn_append,
      observationsOn_attempts_other _ _ _ (by decide)]
    simp [observationsOn, requestUpdates, float64_Milliseconds _ h0 h64]
    rfl
  have hdiv : Int.tdiv data.APICallDuration 1000000 = data.APICallDuration / 1000000 :=
    Int.tdiv_eq_ediv h0 (by decide)
  refine ⟨hobs, ?_, ?_, ?_⟩
  · rw [hdiv]; omega
  · rw [hdiv]; omega
  · intro h250
    rw [hobs, h250]
    rfl

/-- Witness for C4: a call that took 250ms. -/
theorem PostRequestMetrics_request_latency_ms_witness :
    observationsOn Instrument.RequestLatency
        (postRequestUpdates (MetricData.mk "s3" "GetObject" 200 (250 * Millisecond) 0 []) [])
      = [(RequestLabels "s3" "GetObject" 200, 250)] :=
  (PostRequestMetrics_request_latency_ms
    (MetricData.mk "s3" "GetObject" 200 (250 * Millisecond) 0 []) []
    (by decide) (by decide)).2.2.2 rfl

theorem float64_exact_le (n : Int) (h : n.natAbs ≤ 2 ^ 53) : float64 n = n := by
  rcases Nat.lt_or_eq_of_le h with hlt | heq
  · exact float64_exact n hlt
  · rcases Int.natAbs_eq n with hn | hn
    · rw [hn, heq]; decide
    · rw [hn, heq]; decide

theorem count_map_labels (as : List AttemptMetrics) (f : AttemptMetrics → Labels)
    (l : Labels) :
    (as.map f).count l = (as.filter (fun a => f a = l)).length := by
  induction as with
  | nil => rfl
  | cons a as ih =>
    by_cases h : f a = l
    · simp [List.count_cons, List.filter_cons, h, ih]
    · simp [List.count_cons, List.filter_cons, h, ih]

theorem counterValue_PostRequestMetrics (data : MetricData) (reg : Registry) (l : Labels) :
    counterValue Instrument.TotalRequestAttempts (PostRequestMetrics data reg).2 l
      = counterValue Instrument.TotalRequestAttempts reg l
        + (data.Attempts.filter (fun a =>
            RequestLabels data.ServiceID data.OperationName a.StatusCode = l)).length := by
  unfold counterValue
  rw [PostRequestMetrics_registry, incsOn_append, incsOn_append, incsOn_attempts,
    List.count_append, List.count_append, count_map_labels]
  simp [incsOn, requestUpdates]

/-- C5 (the code departs from the claim): an attempt whose service-call
duration is 250ms is observed on the attempt-latency histogram as 250000000,
the duration in nanoseconds, while the request latency of the same 250ms is
observed as 250. -/
theorem PostRequestMetrics_attempt_latency_nanoseconds :
    observationsOn Instrument.RequestAttemptLatency
        (postRequestUpdates (MetricData.mk "s3" "GetObject" 200 (250 * Millisecond) 0
          [⟨200, 250 * Millisecond⟩]) [])
      = [(RequestLabels "s3" "GetObject" 200, 250000000)] ∧
    observationsOn Instrument.RequestLatency
        (postRequestUpdates (MetricData.mk "s3" "GetObject" 200 (250 * Millisecond) 0
          [⟨200, 250 * Millisecond⟩]) [])
      = [(RequestLabels "s3" "GetObject" 200, 250)] := by
  decide

/-- C7 fails as stated: for the retry count 9007199254740993 (2^53 + 1) the
value observed on the retry-count histogram is 9007199254740992, not the
retry count. -/
theorem PostRequestMetrics_retry_count_rounded :
    isInt64 9007199254740993 ∧
    observationsOn Instrument.RetryCount
        (postRequestUpdates (MetricData.mk "s3" "GetObject" 200 0 9007199254740993 []) [])
      = [(RequestLabels "s3" "GetObject" 200, 9007199254740992)] ∧
    observationsOn Instrument.RetryCount
        (postRequestUpdates (MetricData.mk "s3" "GetObject" 200 0 9007199254740993 []) [])
      ≠ [(RequestLabels "s3" "GetObject" 200,
          (MetricData.mk "s3" "GetObject" 200 0 9007199254740993 []).RetryCount)] := by
  decide

/-- C7 (amended): the three request-level updates of `PostRequestMetrics`, the
request-total increment, the request-latency observation and the retry-count
observation, all carry the label set (service ID, operation name, final status
code); the value observed on the retry-count histogram is the retry count
converted to float64, which equals the retry count whenever its absolute value
is at most 2^53. -/
theorem PostRequestMetrics_request_level (data : MetricData) (reg : Registry) :
    (postRequestUpdates data reg).take 3
      = [⟨Instrument.TotalRequests,
            RequestLabels data.ServiceID data.OperationName data.StatusCode, Op.Inc⟩,
         ⟨Instrument.RequestLatency,
            RequestLabels data.ServiceID data.OperationName data.StatusCode,
            Op.Observe (float64 (Milliseconds data.APICallDuration))⟩,
         ⟨Instrument.RetryCount,
            RequestLabels data.ServiceID data.OperationName data.StatusCode,
            Op.Observe (float64 data.RetryCount)⟩] ∧
    incsOn Instrument.TotalRequests (postRequestUpdates data reg)
      = [RequestLabels data.ServiceID data.OperationName data.StatusCode] ∧
    (observationsOn Instrument.RequestLatency (postRequestUpdates data reg)).map Prod.fst
      = [RequestLabels data.ServiceID data.OperationName data.StatusCode] ∧
    observationsOn Instrument.RetryCount (postRequestUpdates data reg)
      = [(RequestLabels data.ServiceID data.OperationName data.StatusCode,
          float64 data.RetryCount)] ∧
    (data.RetryCount.natAbs ≤ 2 ^ 53 → float64 data.RetryCount = data.RetryCount) := by
  unfold postRequestUpdates
  rw [newUpdates_PostRequestMetrics]
  refine ⟨by simp [requestUpdates], ?_, ?_, ?_, float64_exact_le _⟩
  · rw [incsOn_append, incsOn_attempts_other _ _ _ (by decide)]
    simp [incsOn, requestUpdates]
  · rw [observationsOn_append, observationsOn_attempts_other _ _ _ (by decide)]
    simp [observationsOn, requestUpdates]
  · rw [observationsOn_append, observationsOn_attempts_other _ _ _ (by decide)]
    simp [observationsOn, requestUpdates]

/-- Witness for C7 (amended): a request that was retried twice. -/
theorem PostRequestMetrics_request_level_witness :
    (MetricData.mk "s3" "GetObject" 200 7000000 2 []).RetryCount.natAbs ≤ 2 ^ 53 ∧
    float64 (MetricData.mk "s3" "GetObject" 200 7000000 2 []).RetryCount = 2 :=
  ⟨by decide,
   (PostRequestMetrics_request_level
      (MetricData.mk "s3" "GetObject" 200 7000000 2 []) []).2.2.2.2 (by decide)⟩

/-- C10: with the attempt-total counter read as a map from label sets to
counts, `PostRequestMetrics` raises the count under (service ID, operation
name, s) by the number of attempts whose status code is s, leaves unchanged
the count under every label set with another service ID or operation name,
and lowers no count. -/
theorem PostRequestMetrics_attempt_counter (data : MetricData) (reg : Registry) (s : Int) :
    counterValue Instrument.TotalRequestAttempts (PostRequestMetrics data reg).2
        (RequestLabels data.ServiceID data.OperationName s)
      = counterValue Instrument.TotalRequestAttempts reg
          (RequestLabels data.ServiceID data.OperationName s)
        + (data.Attempts.filter (fun a => a.StatusCode = s)).length ∧
    (∀ l : Labels, l.service ≠ data.ServiceID ∨ l.operation ≠ data.OperationName →
      counterValue Instrument.TotalRequestAttempts (PostRequestMetrics data reg).2 l
        = counterValue Instrument.TotalRequestAttempts reg l) ∧
    (∀ l : Labels, counterValue Instrument.TotalRequestAttempts reg l
      ≤ counterValue Instrument.TotalRequestAttempts (PostRequestMetrics data reg).2 l) := by
  refine ⟨?_, ?_, ?_⟩
  · rw [counterValue_PostRequestMetrics]
    simp [RequestLabels]
  · intro l hl
    rw [counterValue_PostRequestMetrics]
    have hne : ∀ a : AttemptMetrics,
        RequestLabels data.ServiceID data.OperationName a.StatusCode ≠ l := by
      intro a h
      subst h
      simp [RequestLabels] at hl
    simp [hne]
  · intro l
    rw [counterValue_PostRequestMetrics]
    exact Nat.le_add_right _ _

/-- Witness for C10: two of three attempts ended with status 500; the count
under ("s3", "GetObject", 500) goes from 1 to 3 and a count of another
service stays as it was. -/
theorem PostRequestMetrics_attempt_counter_witness :
    counterValue Instrument.TotalRequestAttempts
        (PostRequestMetrics (MetricData.mk "s3" "GetObject" 200 7000000 2
            [⟨500, 1000000⟩, ⟨500, 2000000⟩, ⟨200, 4000000⟩])
          [⟨Instrument.TotalRequestAttempts, RequestLabels "s3" "GetObject" 500, Op.Inc⟩,
           ⟨Instrument.TotalRequestAttempts, RequestLabels "ec2" "GetObject" 500, Op.Inc⟩]).2
        (RequestLabels "s3" "GetObject" 500)
      = 1 + 2 ∧
    counterValue Instrument.TotalRequestAttempts
        (PostRequestMetrics (MetricData.mk "s3" "GetObject" 200 7000000 2
            [⟨500, 1000000⟩, ⟨500, 2000000⟩, ⟨200, 4000000⟩])
          [⟨Instrument.TotalRequestAttempts, RequestLabels "s3" "GetObject" 500, Op.Inc⟩,
           ⟨Instrument.TotalRequestAttempts, RequestLabels "ec2" "GetObject" 500, Op.Inc⟩]).2
        (RequestLabels "ec2" "GetObject" 500)
      = 1 :=
  ⟨(PostRequestMetrics_attempt_counter (MetricData.mk "s3" "GetObject" 200 7000000 2
        [⟨500, 1000000⟩, ⟨500, 2000000⟩, ⟨200, 4000000⟩])
      [⟨Instrument.TotalRequestAttempts, RequestLabels "s3" "GetObject" 500, Op.Inc⟩,
       ⟨Instrument.TotalRequestAttempts, RequestLabels "ec2" "GetObject" 500, Op.Inc⟩]
      500).1,
   (PostRequestMetrics_attempt_counter (MetricData.mk "s3" "GetObject" 200 7000000 2
        [⟨500, 1000000⟩, ⟨500, 2000000⟩, ⟨200, 4000000⟩])
      [⟨Instrument.TotalRequestAttempts, RequestLabels "s3" "GetObject" 500, Op.Inc⟩,
       ⟨Instrument.TotalRequestAttempts, RequestLabels "ec2" "GetObject" 500, Op.Inc⟩]
      500).2.1 (RequestLabels "ec2" "GetObject" 500) (Or.inl (by decide))⟩

/-! ## Configuration injector -/

/-- C6: `WithPrometheusMetrics` returns a configuration exactly when metric
registration does not panic, and the configuration it returns has the
`APIOptions` of the given one followed by exactly one new step: one element
longer, the original steps unchanged and in order as its prefix (the other
fields are kept). -/
theorem WithPrometheusMetrics_appends_step {Registerer Stack HTTPClient Rest : Type}
    (MustRegisterMetrics : Registerer → Option Registerer)
    (WithMetricMiddlewares :
      PrometheusPublisher Registerer → HTTPClient → Stack → Error × Stack)
    (DefaultClient : HTTPClient)
    (cfg : Config (Stack → Error × Stack) Rest) (r : Registerer) :
    (WithPrometheusMetrics MustRegisterMetrics WithMetricMiddlewares DefaultClient
        cfg r).isSome = (MustRegisterMetrics r).isSome ∧
    ∀ cfg1 : Config (Stack → Error × Stack) Rest,
      WithPrometheusMetrics MustRegisterMetrics WithMetricMiddlewares DefaultClient cfg r
          = some cfg1 →
        (∃ step, cfg1.APIOptions = cfg.APIOptions ++ [step]) ∧
        cfg1.APIOptions.length = cfg.APIOptions.length + 1 ∧
        cfg1.APIOptions.take cfg.APIOptions.length = cfg.APIOptions ∧
        cfg1.rest = cfg.rest := by
  unfold WithPrometheusMetrics NewPrometheusPublisher
  cases hreg : MustRegisterMetrics r with
  | none => simp
  | some r1 =>
    refine ⟨rfl, ?_⟩
    intro cfg1 h
    simp only [Option.some.injEq] at h
    subst h
    exact ⟨⟨_, rfl⟩, by simp, by simp, rfl⟩

/-- Witness for C6: a registry on which nothing is registered yet (`false`), a
configuration with one step; the returned configuration has two steps. -/
theorem WithPrometheusMetrics_appends_step_witness :
    ∃ cfg1 : Config (Nat → Error × Nat) Unit,
      WithPrometheusMetrics (fun registered : Bool => if registered then none else some true)
          (fun (_ : PrometheusPublisher Bool) (_ : Unit) (s : Nat) => (none, s + 1)) ()
          ⟨[fun s => (none, s)], ()⟩ false = some cfg1 ∧
      cfg1.APIOptions.length = 2 :=
  ⟨_, rfl,
   ((WithPrometheusMetrics_appends_step
      (fun registered : Bool => if registered then none else some true)
      (fun (_ : PrometheusPublisher Bool) (_ : Unit) (s : Nat) => (none, s + 1)) ()
      ⟨[fun s => (none, s)], ()⟩ false).2 _ rfl).2.1⟩

end publisher
